import Mathlib

/-!
# Verification of the Solapi n8n node's webhook lifecycle and signing logic

This development embeds, in Lean, the webhook lifecycle manager
(`webhookMethods.default.checkExists` / `create` / `delete` of
`src/nodes/Solapi/SolapiTrigger.node.ts`), the inbound webhook adapter
(`SolapiTrigger.webhook`), and the HMAC authorization-header builder
(`createSolapiAuthHeader` of `src/nodes/Solapi/Solapi.node.ts`), and proves
the specified properties about them.

Remote HTTP calls are modelled by an explicit environment (`RemoteEnv`)
mapping each endpoint the code can hit to an `Except`-valued outcome
(`.error` models a thrown/rejected request).  Each lifecycle operation
returns, besides its result, the final cached `RegistrationState` and the
list of remote calls it issued, so "no remote call is made" and
"state is unchanged" are directly statable.
-/

/-- JavaScript/JSON values as the code manipulates them: `null`, booleans,
numbers, strings, arrays and objects (association lists).  `undefined`
(an absent object property) is modelled by `Option.none` at use sites. -/
inductive Json where
  | null
  | bool (b : Bool)
  | num (n : Int)
  | str (s : String)
  | arr (xs : List Json)
  | obj (fields : List (String × Json))

/-- JavaScript truthiness of a value (`if (v)`): `null`, `false`, `0` and
the empty string are falsy; arrays and objects are always truthy. -/
def jsTruthy : Json → Bool
  | Json.null => false
  | Json.bool b => b
  | Json.num n => n != 0
  | Json.str s => s != ""
  | Json.arr _ => true
  | Json.obj _ => true

/-- Truthiness of a possibly-undefined value (`if (o?.field)`). -/
def jsTruthyOpt : Option Json → Bool
  | some v => jsTruthy v
  | none => false

/-- Property access `v?.k`: `none` models JavaScript `undefined`
(missing property, or access on a non-object). -/
def jget (v : Json) (k : String) : Option Json :=
  match v with
  | Json.obj fields => (fields.find? (fun p => p.1 == k)).map (fun p => p.2)
  | _ => none

/-- The JavaScript `||` operator applied to a possibly-undefined left
operand and a default: returns the left value when truthy, else the
default. -/
def jsOrJ (o : Option Json) (dflt : Json) : Json :=
  match o with
  | some v => if jsTruthy v then v else dflt
  | none => dflt

/-- Strict equality `o === s` between a possibly-undefined value and a
string: true exactly when the value is that string. -/
def optIsStr (o : Option Json) (s : String) : Bool :=
  match o with
  | some (Json.str t) => t == s
  | _ => false

/-- The per-node cached registration state held in
`getWorkflowStaticData('node')`: `{ webhookId?, commerceHookId?, webhookUrl? }`.
`none` models a field never written (JavaScript `undefined`). -/
structure RegistrationState where
  webhookId : Option Json
  commerceHookId : Option Json
  webhookUrl : Option Json

/-- The empty cache of a fresh node instance. -/
def RegistrationState.empty : RegistrationState := ⟨none, none, none⟩

/-- One remote HTTP call the lifecycle code can issue, with the request
data that identifies it. -/
inductive RemoteCall where
  /-- `GET /webhook/v1/outgoing?limit=200` -/
  | getOutgoingList
  /-- `POST /webhook/v1/outgoing` with `{eventId, url, name, isTemporary}` -/
  | postOutgoing (eventId url : String) (isTemporary : Bool)
  /-- `POST /commerce/v1/hooks/{hookId}/connect-webhook` -/
  | connectCommerce (hookId url : String) (isTemporary : Bool)
  /-- `POST /commerce/v1/hooks/{id}/disconnect-webhook` (id interpolated
  from the cached value) -/
  | disconnectCommerce (id : Json)
  /-- `DELETE /webhook/v1/outgoing/{id}` (id interpolated from the cached
  value) -/
  | deleteOutgoing (id : Json)
  /-- `GET /commerce/v1/hooks/{hookId}` (only in the spec-described
  reconciliation, see `checkExistsSpec`) -/
  | getCommerceHook (hookId : String)
  /-- `GET /commerce/v1/hooks?limit=500` (only in the spec-described
  reconciliation, see `checkExistsSpec`) -/
  | getCommerceHookList

/-- Outcomes of the remote endpoints during one lifecycle operation.
`Except.error m` models the underlying HTTP call throwing/rejecting with
message `m`; `Except.ok v` a response whose parsed body is `v`. -/
structure RemoteEnv where
  /-- response of `GET /webhook/v1/outgoing` -/
  outgoingList : Except String Json
  /-- response of `POST /webhook/v1/outgoing` -/
  createOutgoing : Except String Json
  /-- response of `POST /commerce/v1/hooks/{hookId}/connect-webhook` -/
  connectWebhook : String → Except String Json
  /-- response of `POST /commerce/v1/hooks/{id}/disconnect-webhook` -/
  disconnectWebhook : Json → Except String Json
  /-- response of `DELETE /webhook/v1/outgoing/{id}` -/
  deleteOutgoingCall : Json → Except String Json
  /-- response of `GET /commerce/v1/hooks/{hookId}` -/
  getCommerceHook : String → Except String Json
  /-- response of `GET /commerce/v1/hooks?limit=500` -/
  commerceHookList : Except String Json

/-- Result of `checkExists`: the returned boolean, the cache after the
call, and the remote calls issued. -/
structure CheckResult where
  result : Bool
  state : RegistrationState
  calls : List RemoteCall

/-- `Array.isArray(res) ? res : ((res?.list) || res?.webhookList || [])`
followed by `.find` on the outcome: `some xs` when the selected value is
an array, `none` when it is a truthy non-array (on which `.find` would
throw a TypeError, caught by the surrounding `try`). -/
def outgoingArr (res : Json) : Option (List Json) :=
  match res with
  | Json.arr xs => some xs
  | _ =>
    match jsOrJ (jget res "list") (jsOrJ (jget res "webhookList") (Json.arr [])) with
    | Json.arr xs => some xs
    | _ => none

/-- The predicate of the `.find` over the outgoing-webhook listing:
`(w?.url === url) && (!w?.eventId || w?.eventId === eventId)`. -/
def outgoingMatch (url eventId : String) (w : Json) : Bool :=
  optIsStr (jget w "url") url && (!jsTruthyOpt (jget w "eventId") || optIsStr (jget w "eventId") eventId)

/-- `webhookMethods.default.checkExists` of
`src/nodes/Solapi/SolapiTrigger.node.ts` (lines 95-131).  Parameters:
the node's `eventType` and `hookId` parameters, the current callback URL
`url`, the cached state `data` and the remote environment.

For `commerceAction` the code checks only the cache: a truthy `hookId`
with `data.commerceHookId === hookId && data.webhookUrl === url` returns
true; otherwise it returns false (the source has an early
`if (!hookId) return false;` followed by an unconditional
`return false;`) — no remote call is made on this branch.

For the report kinds a truthy cached `webhookId` with matching
`webhookUrl` returns true; otherwise the outgoing-webhook listing is
fetched inside a `try` whose failure falls through to `return false`. -/
def checkExists (eventType hookId url : String) (data : RegistrationState)
    (env : RemoteEnv) : CheckResult :=
  if eventType == "commerceAction" then
    if hookId != "" && optIsStr data.commerceHookId hookId && optIsStr data.webhookUrl url then
      ⟨true, data, []⟩
    else if hookId == "" then
      ⟨false, data, []⟩
    else
      -- source lines 106-110: after the `!hookId` guard the function
      -- returns false unconditionally, performing no remote lookup
      ⟨false, data, []⟩
  else
    let eventId := if eventType == "messageReport" then "SINGLE-REPORT" else "GROUP-REPORT"
    if jsTruthyOpt data.webhookId && optIsStr data.webhookUrl url then
      ⟨true, data, []⟩
    else
      match env.outgoingList with
      | Except.error _ => ⟨false, data, [RemoteCall.getOutgoingList]⟩
      | Except.ok res =>
        match outgoingArr res with
        | none => ⟨false, data, [RemoteCall.getOutgoingList]⟩
        | some xs =>
          match xs.find? (outgoingMatch url eventId) with
          | some w =>
            match jget w "webhookId" with
            | some wid =>
              if jsTruthy wid then
                ⟨true, { data with webhookId := some wid, webhookUrl := some (Json.str url) }, [RemoteCall.getOutgoingList]⟩
              else
                ⟨false, data, [RemoteCall.getOutgoingList]⟩
            | none => ⟨false, data, [RemoteCall.getOutgoingList]⟩
          | none => ⟨false, data, [RemoteCall.getOutgoingList]⟩

/-- The error message built by `create` when the registration POST
throws: `Failed to create Solapi webhook: ${e?.message || 'unknown error'}`. -/
def createErrMsg (e : String) : String :=
  "Failed to create Solapi webhook: " ++ (if e == "" then "unknown error" else e)

/-- Result of `create`: `Except.ok true` on success, `Except.error m`
modelling the thrown `NodeOperationError` with message `m`; plus the
final cache and the remote calls issued. -/
structure CreateResult where
  outcome : Except String Bool
  state : RegistrationState
  calls : List RemoteCall

/-- `webhookMethods.default.create` of
`src/nodes/Solapi/SolapiTrigger.node.ts` (lines 132-165): POSTs the
registration (connect-webhook for `commerceAction`, outgoing webhook
otherwise), updates the cache on success, and wraps any thrown error in
a `NodeOperationError` naming the cause. -/
def create (eventType hookId url : String) (isTemporary : Bool)
    (data : RegistrationState) (env : RemoteEnv) : CreateResult :=
  if eventType == "commerceAction" then
    match env.connectWebhook hookId with
    | Except.ok _ =>
      ⟨Except.ok true,
       { data with commerceHookId := some (Json.str hookId), webhookUrl := some (Json.str url) },
       [RemoteCall.connectCommerce hookId url isTemporary]⟩
    | Except.error e =>
      ⟨Except.error (createErrMsg e), data, [RemoteCall.connectCommerce hookId url isTemporary]⟩
  else
    let eventId := if eventType == "messageReport" then "SINGLE-REPORT" else "GROUP-REPORT"
    match env.createOutgoing with
    | Except.ok response =>
      ⟨Except.ok true,
       { data with webhookId := some (jsOrJ (jget response "webhookId") (Json.str "")),
                   webhookUrl := some (Json.str url) },
       [RemoteCall.postOutgoing eventId url isTemporary]⟩
    | Except.error e =>
      ⟨Except.error (createErrMsg e), data, [RemoteCall.postOutgoing eventId url isTemporary]⟩

/-- The `try { await ... } catch {}` pattern: the call's outcome is
inspected and discarded. -/
def swallow (r : Except String Json) : Unit :=
  match r with
  | Except.ok _ => ()
  | Except.error _ => ()

/-- `webhookMethods.default.delete` of
`src/nodes/Solapi/SolapiTrigger.node.ts` (lines 166-187): best-effort
disconnect of a cached commerce binding and DELETE of a cached outgoing
webhook, each inside `try {} catch {}`, then `return true`.  The cache
fields are read but never written. -/
def deleteWebhook (data : RegistrationState) (env : RemoteEnv) :
    Bool × RegistrationState × List RemoteCall :=
  let commerceCalls :=
    if jsTruthyOpt data.commerceHookId then
      let hid := jsOrJ data.commerceHookId Json.null
      let _ := swallow (env.disconnectWebhook hid)
      [RemoteCall.disconnectCommerce hid]
    else []
  let reportCalls :=
    if jsTruthyOpt data.webhookId then
      let wid := jsOrJ data.webhookId Json.null
      let _ := swallow (env.deleteOutgoingCall wid)
      [RemoteCall.deleteOutgoing wid]
    else []
  (true, data, commerceCalls ++ reportCalls)

/-- One emitted workflow item of the inbound adapter: `{ json: ... }`. -/
structure OutputItem where
  json : Json

/-- `SolapiTrigger.webhook` (lines 191-201): the inbound adapter. An
array body yields one item per element in order; a (non-null) object
body yields one item; anything else yields no items (`null` is excluded
by the truthiness guard `body && typeof body === 'object'`). -/
def webhookAdapter (body : Json) : List OutputItem :=
  match body with
  | Json.arr xs => xs.map (fun entry => ⟨entry⟩)
  | Json.obj fields => [⟨Json.obj fields⟩]
  | _ => []

/-- `res?.webhookUrl || res?.webhook?.url` of the direct commerce-hook
lookup: the bound URL the remote reports for a hook. -/
def commerceHookUrl (res : Json) : Option Json :=
  match jget res "webhookUrl" with
  | some v => if jsTruthy v then some v else ((jget res "webhook").bind (fun w => jget w "url"))
  | none => (jget res "webhook").bind (fun w => jget w "url")

/-- `Array.isArray(res) ? res : ((res?.list) || [])` for the commerce
hook listing, `none` when `.find` would throw on a truthy non-array. -/
def commerceArr (res : Json) : Option (List Json) :=
  match res with
  | Json.arr xs => some xs
  | _ =>
    match jsOrJ (jget res "list") (Json.arr []) with
    | Json.arr xs => some xs
    | _ => none

/-- The `.find` predicate over the commerce hook listing:
`(h?.hookId === hookId) && ((h?.webhookUrl === url) || (h?.webhook?.url === url))`. -/
def commerceMatch (hookId url : String) (h : Json) : Bool :=
  optIsStr (jget h "hookId") hookId &&
    (optIsStr (jget h "webhookUrl") url || optIsStr ((jget h "webhook").bind (fun w => jget w "url")) url)

/-- The fallback of the spec-described commerce reconciliation (as
implemented by the repository's earlier variant `src/unnamed/part_000`,
lines 262-276): list hooks (cap 500) and search for one matching both
the configured id and the callback URL, updating the cache on a hit. -/
def checkExistsSpecList (hookId url : String) (data updated : RegistrationState)
    (calls : List RemoteCall) (env : RemoteEnv) : CheckResult :=
  match env.commerceHookList with
  | Except.ok res =>
    match commerceArr res with
    | some xs =>
      if (xs.find? (commerceMatch hookId url)).isSome then
        ⟨true, updated, calls⟩
      else
        ⟨false, data, calls⟩
    | none => ⟨false, data, calls⟩
  | Except.error _ => ⟨false, data, calls⟩

/-- The commerce-kind `exists` check as the spec describes it (and as
the repository's earlier variant `src/unnamed/part_000`, lines 245-277,
implements it): after the cache fast path, a direct lookup of the
configured hook compares its bound webhook URL; on failure or mismatch
the listing fallback `checkExistsSpecList` runs.  Kept distinct from
`checkExists`, whose current commerce branch performs no remote lookup,
so the two can be compared. -/
def checkExistsSpec (hookId url : String) (data : RegistrationState)
    (env : RemoteEnv) : CheckResult :=
  if hookId != "" && optIsStr data.commerceHookId hookId && optIsStr data.webhookUrl url then
    ⟨true, data, []⟩
  else if hookId == "" then
    ⟨false, data, []⟩
  else
    let updated : RegistrationState :=
      { data with commerceHookId := some (Json.str hookId), webhookUrl := some (Json.str url) }
    let direct := [RemoteCall.getCommerceHook hookId]
    match env.getCommerceHook hookId with
    | Except.ok res =>
      let currentUrl := commerceHookUrl res
      if jsTruthyOpt currentUrl && optIsStr currentUrl url then
        ⟨true, updated, direct⟩
      else
        checkExistsSpecList hookId url data updated (direct ++ [RemoteCall.getCommerceHookList]) env
    | Except.error _ =>
      checkExistsSpecList hookId url data updated (direct ++ [RemoteCall.getCommerceHookList]) env

/-! ## The HMAC-SHA256 authorization header builder

`createSolapiAuthHeader` (`src/nodes/Solapi/Solapi.node.ts`, lines 15-21)
reads the clock (`new Date().toISOString()`), draws 16 random bytes
(`randomBytes(16)`), hex-encodes them as the salt, and signs
`date + salt` with HMAC-SHA256 under the API secret.  The embedding
makes the two ambient effects explicit parameters: the clock output
`dateTime` and the drawn `entropy` bytes.  SHA-256 and HMAC are
implemented concretely (FIPS 180-4 / RFC 2104) over byte lists, with
32-bit words as `Nat` reduced mod `2^32`. -/

/-- Truncation to a 32-bit word. -/
def w32 (n : Nat) : Nat := n % 4294967296

/-- 32-bit right rotation. -/
def rotr32 (n x : Nat) : Nat := w32 ((x >>> n) ||| (x <<< (32 - n)))

/-- SHA-256 Σ0. -/
def bsig0 (x : Nat) : Nat := rotr32 2 x ^^^ rotr32 13 x ^^^ rotr32 22 x

/-- SHA-256 Σ1. -/
def bsig1 (x : Nat) : Nat := rotr32 6 x ^^^ rotr32 11 x ^^^ rotr32 25 x

/-- SHA-256 σ0. -/
def ssig0 (x : Nat) : Nat := rotr32 7 x ^^^ rotr32 18 x ^^^ (x >>> 3)

/-- SHA-256 σ1. -/
def ssig1 (x : Nat) : Nat := rotr32 17 x ^^^ rotr32 19 x ^^^ (x >>> 10)

/-- The SHA-256 round constants (FIPS 180-4 §4.2.2, in decimal). -/
def K256 : List Nat :=
  [1116352408, 1899447441, 3049323471, 3921009573, 961987163, 1508970993,
   2453635748, 2870763221, 3624381080, 310598401, 607225278, 1426881987,
   1925078388, 2162078206, 2614888103, 3248222580, 3835390401, 4022224774,
   264347078, 604807628, 770255983, 1249150122, 1555081692, 1996064986,
   2554220882, 2821834349, 2952996808, 3210313671, 3336571891, 3584528711,
   113926993, 338241895, 666307205, 773529912, 1294757372, 1396182291,
   1695183700, 1986661051, 2177026350, 2456956037, 2730485921, 2820302411,
   3259730800, 3345764771, 3516065817, 3600352804, 4094571909, 275423344,
   430227734, 506948616, 659060556, 883997877, 958139571, 1322822218,
   1537002063, 1747873779, 1955562222, 2024104815, 2227730452, 2361852424,
   2428436474, 2756734187, 3204031479, 3329325298]

/-- The SHA-256 initial hash value (FIPS 180-4 §5.3.3, in decimal). -/
def H256 : List Nat :=
  [1779033703, 3144134277, 1013904242, 2773480762,
   1359893119, 2600822924, 528734635, 1541459225]

/-- Block splitting worker, structurally recursive on a fuel bound so
that it reduces inside the kernel; `fuel ≥ l.length` suffices since each
step consumes at least one element. -/
def chunks64Aux : Nat → List Nat → List (List Nat)
  | 0, _ => []
  | _, [] => []
  | fuel + 1, x :: xs =>
    (List.take 64 (x :: xs)) :: chunks64Aux fuel (List.drop 64 (x :: xs))

/-- Split a byte list into 64-byte blocks (the last may be shorter;
SHA-256 only ever applies this to padded input of block-multiple length). -/
def chunks64 (l : List Nat) : List (List Nat) := chunks64Aux l.length l

/-- Big-endian assembly of 4-byte groups into 32-bit words. -/
def toWords : List Nat → List Nat
  | b0 :: b1 :: b2 :: b3 :: rest => (((b0 * 256 + b1) * 256 + b2) * 256 + b3) :: toWords rest
  | _ => []

/-- Extend the 16 message-schedule words to 64. -/
def extendSchedule (ws : List Nat) : List Nat :=
  (List.range 48).foldl
    (fun acc _ =>
      let n := acc.length
      acc ++ [w32 (ssig1 (acc.getD (n - 2) 0) + acc.getD (n - 7) 0 +
                   ssig0 (acc.getD (n - 15) 0) + acc.getD (n - 16) 0)])
    ws

/-- One SHA-256 compression round on the eight working variables. -/
def roundStep (st : List Nat) (kw : Nat × Nat) : List Nat :=
  match st with
  | [a, b, c, d, e, f, g, h] =>
    let ch := (e &&& f) ^^^ ((4294967295 ^^^ e) &&& g)
    let maj := (a &&& b) ^^^ (a &&& c) ^^^ (b &&& c)
    let t1 := w32 (h + bsig1 e + ch + kw.1 + kw.2)
    let t2 := w32 (bsig0 a + maj)
    [w32 (t1 + t2), a, b, c, w32 (d + t1), e, f, g]
  | other => other

/-- Compress one 64-byte block into the running hash state. -/
def compress (h : List Nat) (chunk : List Nat) : List Nat :=
  let ws := extendSchedule (toWords chunk)
  let st := (K256.zip ws).foldl roundStep h
  (h.zip st).map (fun p => w32 (p.1 + p.2))

/-- SHA-256 of a byte list, as a 32-byte digest. -/
def sha256 (msg : List Nat) : List Nat :=
  let bitLen := 8 * msg.length
  let padLen := (64 - (msg.length + 9) % 64) % 64
  let lenBytes := (List.range 8).map (fun i => (bitLen >>> (8 * (7 - i))) % 256)
  let padded := msg ++ [128] ++ List.replicate padLen 0 ++ lenBytes
  let final := (chunks64 padded).foldl compress H256
  final.flatMap (fun wd => [(wd >>> 24) % 256, (wd >>> 16) % 256, (wd >>> 8) % 256, wd % 256])

/-- HMAC-SHA256 (RFC 2104): block size 64, `ipad` `0x36`, `opad` `0x5c`. -/
def hmacSha256 (key msg : List Nat) : List Nat :=
  let k0 := if 64 < key.length then sha256 key else key
  let kPad := k0 ++ List.replicate (64 - k0.length) 0
  let inner := sha256 ((kPad.map (fun b => b ^^^ 54)) ++ msg)
  sha256 ((kPad.map (fun b => b ^^^ 92)) ++ inner)

/-- UTF-8 encoding of a string, byte by byte (what `crypto.createHmac`
hashes when given a JavaScript string). -/
def utf8Bytes (s : String) : List Nat :=
  s.data.flatMap (fun c =>
    let n := c.toNat
    if n < 128 then [n]
    else if n < 2048 then [192 ||| (n >>> 6), 128 ||| (n &&& 63)]
    else if n < 65536 then
      [224 ||| (n >>> 12), 128 ||| ((n >>> 6) &&& 63), 128 ||| (n &&& 63)]
    else
      [240 ||| (n >>> 18), 128 ||| ((n >>> 12) &&& 63),
       128 ||| ((n >>> 6) &&& 63), 128 ||| (n &&& 63)])

/-- The sixteen lowercase hex digits. -/
def hexDigits : List Char := "0123456789abcdef".toList

/-- The hex digit of a value below 16. -/
def hexDigit (n : Nat) : Char := hexDigits.getD n '0'

/-- The two hex digits of one byte. -/
def hexPair (b : Nat) : List Char := [hexDigit (b / 16), hexDigit (b % 16)]

/-- Lowercase hex encoding of a byte list
(`Buffer.toString('hex')` / `Hmac.digest('hex')`). -/
def bytesToHex (bs : List Nat) : String :=
  String.mk (bs.flatMap hexPair)

/-- `createSolapiAuthHeader` of `src/nodes/Solapi/Solapi.node.ts`
(lines 15-21).  `dateTime` is the output of `new Date().toISOString()`
and `entropy` the 16 bytes drawn by `randomBytes(16)`, both made
explicit parameters. -/
def createSolapiAuthHeader (apiKey apiSecret dateTime : String)
    (entropy : List Nat) : String :=
  let salt := bytesToHex entropy
  let signedData := dateTime ++ salt
  let signature := bytesToHex (hmacSha256 (utf8Bytes apiSecret) (utf8Bytes signedData))
  "HMAC-SHA256 apiKey=" ++ apiKey ++ ", date=" ++ dateTime ++ ", salt=" ++ salt ++
    ", signature=" ++ signature

/-! ## Supporting definitions and lemmas -/

/-- A remote environment in which every call throws. -/
def envAllDown : RemoteEnv :=
  { outgoingList := Except.error "down"
    createOutgoing := Except.error "down"
    connectWebhook := fun _ => Except.error "down"
    disconnectWebhook := fun _ => Except.error "down"
    deleteOutgoingCall := fun _ => Except.error "down"
    getCommerceHook := fun _ => Except.error "down"
    commerceHookList := Except.error "down" }

/-- Sanity vector: the `sha256` embedding agrees with FIPS 180-4 on the
standard test input. -/
theorem sha256_test_vector :
    bytesToHex (sha256 (utf8Bytes "abc")) =
      "ba7816bf8f01cfea414140de5dae2223b00361a396177a9cb410ff61f20015ad" := by
  rfl

set_option maxRecDepth 100000 in
/-- Sanity vector: the `hmacSha256` embedding agrees with the RFC 2104 /
FIPS 198 test vector. -/
theorem hmacSha256_test_vector :
    bytesToHex (hmacSha256 (utf8Bytes "key")
      (utf8Bytes "The quick brown fox jumps over the lazy dog")) =
      "f7bc83f430538424b13298e6aa6fb143ef4d59a14946175997479dbc2d1a3cd8" := by
  rfl

/-- `hexDigit` is injective below 16. -/
theorem hexDigit_inj : ∀ a, a < 16 → ∀ b, b < 16 → hexDigit a = hexDigit b → a = b := by
  decide

/-- Hex encoding emits two characters per byte. -/
theorem hexPair_flatMap_length (bs : List Nat) :
    (bs.flatMap hexPair).length = 2 * bs.length := by
  induction bs with
  | nil => rfl
  | cons b t ih => simp [hexPair, ih]; omega

/-- Hex encoding is injective on byte lists. -/
theorem hexPair_flatMap_inj : ∀ (as bs : List Nat), (∀ x ∈ as, x < 256) → (∀ x ∈ bs, x < 256) →
    as.flatMap hexPair = bs.flatMap hexPair → as = bs := by
  intro as
  induction as with
  | nil =>
    intro bs _ _ h
    cases bs with
    | nil => rfl
    | cons b t => simp [hexPair] at h
  | cons a t ih =>
    intro bs ha hb h
    cases bs with
    | nil => simp [hexPair] at h
    | cons b u =>
      simp only [List.flatMap_cons, hexPair, List.cons_append, List.nil_append,
        List.cons.injEq] at h
      obtain ⟨h1, h2, h3⟩ := h
      have halt : a < 256 := ha a (by simp)
      have hblt : b < 256 := hb b (by simp)
      have hd1 : a / 16 = b / 16 :=
        hexDigit_inj (a / 16) (by omega) (b / 16) (by omega) h1
      have hd2 : a % 16 = b % 16 :=
        hexDigit_inj (a % 16) (by omega) (b % 16) (by omega) h2
      have hab : a = b := by omega
      have ht : t = u := ih u (fun x hx => ha x (by simp [hx])) (fun x hx => hb x (by simp [hx])) h3
      rw [hab, ht]

/-! ## Claim theorems -/

/-- C2: the teardown operation (webhook delete) returns true to the host
for every cached `RegistrationState` and every remote environment —
including environments in which the disconnect-webhook call, the DELETE
outgoing-webhook call, or both throw; both calls sit in
`try {} catch {}` blocks whose failures are swallowed, so no remote
outcome is ever propagated. -/
theorem deleteWebhook_always_returns_true
    (data : RegistrationState) (env : RemoteEnv) :
    (deleteWebhook data env).1 = true := by
  rfl

/-- C10: teardown never modifies the cached `RegistrationState`: after
`delete`, whatever the remote outcomes, `webhookId`, `commerceHookId`
and `webhookUrl` hold exactly their prior values, so a subsequent
`checkExists` run on the post-delete cache behaves exactly as on the
pre-delete cache — in particular it can still take the fast path on the
now-stale identifiers. -/
theorem deleteWebhook_preserves_state
    (data : RegistrationState) (env : RemoteEnv) :
    (deleteWebhook data env).2.1.webhookId = data.webhookId ∧
    (deleteWebhook data env).2.1.commerceHookId = data.commerceHookId ∧
    (deleteWebhook data env).2.1.webhookUrl = data.webhookUrl ∧
    (∀ (eventType hookId url : String) (env2 : RemoteEnv),
      checkExists eventType hookId url (deleteWebhook data env).2.1 env2 =
        checkExists eventType hookId url data env2) := by
  exact ⟨rfl, rfl, rfl, fun _ _ _ _ => rfl⟩

/-- C9: the inbound webhook adapter emits one item per element for an
array body (in order, each wrapped as `{json: element}`), exactly one
item for a non-null object body, and zero items for every other body
(null, boolean, number, string). -/
theorem webhookAdapter_shape :
    (∀ xs : List Json, webhookAdapter (Json.arr xs) = xs.map (fun x => ⟨x⟩)) ∧
    (∀ fields, webhookAdapter (Json.obj fields) = [⟨Json.obj fields⟩]) ∧
    webhookAdapter Json.null = [] ∧
    (∀ b, webhookAdapter (Json.bool b) = []) ∧
    (∀ n, webhookAdapter (Json.num n) = []) ∧
    (∀ s, webhookAdapter (Json.str s) = []) := by
  exact ⟨fun _ => rfl, fun _ => rfl, rfl, fun _ => rfl, fun _ => rfl, fun _ => rfl⟩

/-- C3: when the cached `webhookUrl` equals the current callback URL and
the matching identifier is present (a truthy cached `webhookId` for the
report kinds; a cached `commerceHookId` equal to the configured non-empty
hook id for the commerce kind), `checkExists` returns true with no
remote call and no state change. -/
theorem checkExists_fast_path
    (eventType hookId url : String) (data : RegistrationState) (env : RemoteEnv) :
    (eventType = "commerceAction" → hookId ≠ "" →
      optIsStr data.commerceHookId hookId = true →
      optIsStr data.webhookUrl url = true →
      checkExists eventType hookId url data env = ⟨true, data, []⟩) ∧
    (eventType ≠ "commerceAction" →
      jsTruthyOpt data.webhookId = true →
      optIsStr data.webhookUrl url = true →
      checkExists eventType hookId url data env = ⟨true, data, []⟩) := by
  constructor
  · intro he h1 h2 h3
    subst he
    simp [checkExists, h1, h2, h3]
  · intro he h1 h2
    have hne : (eventType == "commerceAction") = false := by
      simp [he]
    simp [checkExists, hne, h1, h2]

/-- C3 witness: concrete fast-path hits for both kinds, with every
remote endpoint down. -/
theorem checkExists_fast_path_witness :
    checkExists "commerceAction" "hook1" "https://cb"
        ⟨none, some (Json.str "hook1"), some (Json.str "https://cb")⟩ envAllDown =
      ⟨true, ⟨none, some (Json.str "hook1"), some (Json.str "https://cb")⟩, []⟩ ∧
    checkExists "groupReport" "" "https://cb"
        ⟨some (Json.str "wh1"), none, some (Json.str "https://cb")⟩ envAllDown =
      ⟨true, ⟨some (Json.str "wh1"), none, some (Json.str "https://cb")⟩, []⟩ := by
  constructor
  · exact (checkExists_fast_path "commerceAction" "hook1" "https://cb"
      ⟨none, some (Json.str "hook1"), some (Json.str "https://cb")⟩ envAllDown).1
      rfl (by decide) (by decide) (by decide)
  · exact (checkExists_fast_path "groupReport" "" "https://cb"
      ⟨some (Json.str "wh1"), none, some (Json.str "https://cb")⟩ envAllDown).2
      (by decide) (by decide) (by decide)

/-- C6: if the registration POST issued by `create` throws — the
connect-webhook call for the commerce kind, the outgoing-webhook call
otherwise — `create` raises a `NodeOperationError` whose message names
the underlying cause (`Failed to create Solapi webhook: <cause>`),
leaving the cache untouched; it never returns false or succeeds
silently.  When the thrown error carries a non-empty message the full
text embeds that message verbatim. -/
theorem create_failure_raises_node_operation_error
    (eventType hookId url : String) (t : Bool) (data : RegistrationState)
    (env : RemoteEnv) (e : String) :
    (eventType = "commerceAction" → env.connectWebhook hookId = Except.error e →
      create eventType hookId url t data env =
        ⟨Except.error (createErrMsg e), data, [RemoteCall.connectCommerce hookId url t]⟩) ∧
    (eventType ≠ "commerceAction" → env.createOutgoing = Except.error e →
      create eventType hookId url t data env =
        ⟨Except.error (createErrMsg e), data,
         [RemoteCall.postOutgoing
            (if eventType == "messageReport" then "SINGLE-REPORT" else "GROUP-REPORT") url t]⟩) ∧
    (e ≠ "" → createErrMsg e = "Failed to create Solapi webhook: " ++ e) := by
  refine ⟨?_, ?_, ?_⟩
  · intro he h
    subst he
    simp [create, h]
  · intro he h
    have hne : (eventType == "commerceAction") = false := by
      simp [he]
    simp [create, hne, h]
  · intro he
    simp [createErrMsg, he]

/-- C6 witness: with the connect-webhook endpoint rejecting with message
`boom`, a commerce-kind `create` surfaces the wrapped activation error. -/
theorem create_failure_raises_witness :
    create "commerceAction" "hook1" "https://cb" false RegistrationState.empty envAllDown =
      ⟨Except.error (createErrMsg "down"), RegistrationState.empty,
       [RemoteCall.connectCommerce "hook1" "https://cb" false]⟩ ∧
    createErrMsg "down" = "Failed to create Solapi webhook: down" := by
  constructor
  · exact (create_failure_raises_node_operation_error "commerceAction" "hook1" "https://cb"
      false RegistrationState.empty envAllDown "down").1 rfl rfl
  · exact (create_failure_raises_node_operation_error "commerceAction" "hook1" "https://cb"
      false RegistrationState.empty envAllDown "down").2.2 (by decide)

/-- C5: `checkExists` never propagates a remote lookup failure.  In the
embedding every remote outcome is consumed inside the function — its
total return type `CheckResult` reflects the source `try {} catch {}`
around the only verification call it makes.  Concretely: for the report
kinds, when the outgoing-webhook listing throws and the cache fast path
does not apply, the failure is treated as not-found and `checkExists`
returns false normally with the cache untouched; for the commerce kind
no remote verification call is issued at all, so none can fail. -/
theorem checkExists_swallows_remote_failure
    (eventType hookId url : String) (data : RegistrationState) (env : RemoteEnv)
    (e : String) :
    (eventType ≠ "commerceAction" →
      env.outgoingList = Except.error e →
      (jsTruthyOpt data.webhookId && optIsStr data.webhookUrl url) = false →
      checkExists eventType hookId url data env =
        ⟨false, data, [RemoteCall.getOutgoingList]⟩) ∧
    ((checkExists "commerceAction" hookId url data env).calls = []) := by
  constructor
  · intro he h hfast
    have hne : (eventType == "commerceAction") = false := by
      simp [he]
    simp [checkExists, hne, hfast, h]
  · cases h1 : (hookId != "" && optIsStr data.commerceHookId hookId && optIsStr data.webhookUrl url) <;>
      cases h2 : (hookId == "") <;> simp [checkExists, h1, h2]

/-- C5 witness: with every remote endpoint down, a report-kind
`checkExists` on an empty cache returns false after its one listing
attempt, and a commerce-kind `checkExists` issues no remote call. -/
theorem checkExists_swallows_remote_failure_witness :
    checkExists "messageReport" "" "https://cb" RegistrationState.empty envAllDown =
      ⟨false, RegistrationState.empty, [RemoteCall.getOutgoingList]⟩ ∧
    (checkExists "commerceAction" "hook1" "https://cb" RegistrationState.empty envAllDown).calls = [] := by
  constructor
  · exact (checkExists_swallows_remote_failure "messageReport" "" "https://cb"
      RegistrationState.empty envAllDown "down").1 (by decide) rfl (by decide)
  · exact (checkExists_swallows_remote_failure "anything" "hook1" "https://cb"
      RegistrationState.empty envAllDown "down").2

/-- C1 (amended): for commerce-kind subscriptions with a configured
(non-empty) hook id whose cached state does not match — the cached
`commerceHookId` differs from the configured id or the cached
`webhookUrl` differs from the callback URL — `checkExists` returns
false immediately: it performs neither a direct hook lookup nor a hook
listing (the current source's commerce branch ends in an unconditional
`return false` with no remote call). -/
theorem checkExists_commerce_mismatch_no_lookup
    (hookId url : String) (data : RegistrationState) (env : RemoteEnv)
    (h1 : hookId ≠ "")
    (h2 : ¬(optIsStr data.commerceHookId hookId = true ∧ optIsStr data.webhookUrl url = true)) :
    checkExists "commerceAction" hookId url data env = ⟨false, data, []⟩ := by
  have hguard : (hookId != "" && optIsStr data.commerceHookId hookId &&
      optIsStr data.webhookUrl url) = false := by
    cases ha : optIsStr data.commerceHookId hookId <;>
      cases hb : optIsStr data.webhookUrl url <;> simp_all
  have h1b : (hookId == "") = false := by
    simp [h1]
  simp [checkExists, hguard, h1b]

/-- C1 witness: configured hook id `hook1`, empty cache, all endpoints
down — the mismatch path returns false with no calls. -/
theorem checkExists_commerce_mismatch_witness :
    checkExists "commerceAction" "hook1" "https://cb" RegistrationState.empty envAllDown =
      ⟨false, RegistrationState.empty, []⟩ :=
  checkExists_commerce_mismatch_no_lookup "hook1" "https://cb" RegistrationState.empty
    envAllDown (by decide) (by decide)

/-- A remote environment in which the direct commerce-hook lookup
reports the hook bound to `https://cb` and everything else throws. -/
def envCommerceBound : RemoteEnv :=
  { envAllDown with
    getCommerceHook := fun _ => Except.ok (Json.obj [("webhookUrl", Json.str "https://cb")]) }

/-- C1 counterexample: configured hook id `hook1`, empty cache, and a
remote on which a direct lookup of `hook1` would report exactly the
current callback URL.  The claim says `checkExists` attempts that direct
lookup and returns true; the code returns false having issued no remote
call.  The spec-described reconciliation `checkExistsSpec` (the claim's
account, as implemented in the repository's earlier variant) indeed
returns true here after the direct lookup. -/
theorem checkExists_commerce_counterexample :
    checkExists "commerceAction" "hook1" "https://cb" RegistrationState.empty envCommerceBound =
      ⟨false, RegistrationState.empty, []⟩ ∧
    checkExistsSpec "hook1" "https://cb" RegistrationState.empty envCommerceBound =
      ⟨true, ⟨none, some (Json.str "hook1"), some (Json.str "https://cb")⟩,
       [RemoteCall.getCommerceHook "hook1"]⟩ := by
  exact ⟨rfl, rfl⟩

/-- A remote environment in which the commerce connect-webhook POST
succeeds (empty response body) and everything else throws. -/
def envConnectOk : RemoteEnv :=
  { envAllDown with connectWebhook := fun _ => Except.ok (Json.obj []) }

/-- C7 counterexample: with event kind `commerceAction` and an empty
configured hook id, `checkExists` merely returns false (no fatal
configuration error is surfaced), and `create` — far from attempting no
remote call — issues the connect-webhook POST with the empty id
interpolated into the path, and succeeds silently when that call
succeeds. -/
theorem commerce_missing_hook_counterexample :
    checkExists "commerceAction" "" "https://cb" RegistrationState.empty envConnectOk =
      ⟨false, RegistrationState.empty, []⟩ ∧
    create "commerceAction" "" "https://cb" false RegistrationState.empty envConnectOk =
      ⟨Except.ok true, ⟨none, some (Json.str ""), some (Json.str "https://cb")⟩,
       [RemoteCall.connectCommerce "" "https://cb" false]⟩ := by
  exact ⟨rfl, rfl⟩

/-- C7 (amended): with event kind `commerceAction` and an empty hook id,
`checkExists` returns false immediately with no remote call, but no
fatal configuration error is surfaced before a remote call: `create`
performs no emptiness validation and always issues the connect-webhook
POST with the empty id, raising its fatal `NodeOperationError` (naming
the cause) only if that remote call throws. -/
theorem commerce_missing_hook_behavior
    (url : String) (t : Bool) (data : RegistrationState) (env : RemoteEnv) (e : String) :
    (checkExists "commerceAction" "" url data env = ⟨false, data, []⟩) ∧
    ((create "commerceAction" "" url t data env).calls = [RemoteCall.connectCommerce "" url t]) ∧
    (env.connectWebhook "" = Except.error e →
      (create "commerceAction" "" url t data env).outcome = Except.error (createErrMsg e)) := by
  refine ⟨rfl, ?_, ?_⟩
  · cases h : env.connectWebhook "" <;> simp [create, h]
  · intro h
    simp [create, h]

/-- C7 witness: all endpoints down — the empty-hook-id `create` issues
its one connect call and surfaces the wrapped activation error. -/
theorem commerce_missing_hook_behavior_witness :
    checkExists "commerceAction" "" "https://cb" RegistrationState.empty envAllDown =
      ⟨false, RegistrationState.empty, []⟩ ∧
    (create "commerceAction" "" "https://cb" false RegistrationState.empty envAllDown).calls =
      [RemoteCall.connectCommerce "" "https://cb" false] ∧
    (create "commerceAction" "" "https://cb" false RegistrationState.empty envAllDown).outcome =
      Except.error (createErrMsg "down") := by
  refine ⟨?_, ?_, ?_⟩
  · exact (commerce_missing_hook_behavior "https://cb" false RegistrationState.empty
      envAllDown "down").1
  · exact (commerce_missing_hook_behavior "https://cb" false RegistrationState.empty
      envAllDown "down").2.1
  · exact (commerce_missing_hook_behavior "https://cb" false RegistrationState.empty
      envAllDown "down").2.2 rfl

/-- A remote environment in which the outgoing-webhook creation POST
succeeds but its response body carries no `webhookId`, while the
subsequent listing does report the created webhook (id `wh1`) bound to
the callback URL; everything else throws. -/
def envCreateNoId : RemoteEnv :=
  { envAllDown with
    createOutgoing := Except.ok (Json.obj [])
    outgoingList := Except.ok (Json.obj [("list", Json.arr
      [Json.obj [("url", Json.str "https://cb"), ("eventId", Json.str "GROUP-REPORT"),
                 ("webhookId", Json.str "wh1")]])]) }

/-- C4 counterexample: a successful report-kind `create` whose response
carried no `webhookId` caches the empty string (`response.webhookId || ''`),
so the immediately following `checkExists` — with parameters unchanged and
the remote listing faithfully reporting the just-created webhook — fails
the fast path and issues the remote listing call, contradicting the
claim that it returns true via the fast path without any remote call. -/
theorem create_then_checkExists_counterexample :
    (create "groupReport" "" "https://cb" false RegistrationState.empty envCreateNoId).outcome =
      Except.ok true ∧
    (create "groupReport" "" "https://cb" false RegistrationState.empty envCreateNoId).state.webhookId =
      some (Json.str "") ∧
    (checkExists "groupReport" "" "https://cb"
        (create "groupReport" "" "https://cb" false RegistrationState.empty envCreateNoId).state
        envCreateNoId).calls = [RemoteCall.getOutgoingList] := by
  exact ⟨rfl, rfl, rfl⟩

/-- C4 (amended): a successful `create` followed immediately by
`checkExists` in the same process with no remote drift returns true via
the fast path — with no remote call — provided the success left a
usable identifier in the cache: for the commerce kind a non-empty
configured hook id, for the report kinds a truthy `webhookId` in the
create response (when the response omits it the code caches the empty
string and the next `checkExists` falls back to a remote listing). -/
theorem create_then_checkExists_fast_path
    (eventType hookId url : String) (t : Bool) (data : RegistrationState) (env : RemoteEnv) :
    (eventType = "commerceAction" → hookId ≠ "" →
      ∀ r, env.connectWebhook hookId = Except.ok r →
        (create eventType hookId url t data env).outcome = Except.ok true ∧
        checkExists eventType hookId url (create eventType hookId url t data env).state env =
          ⟨true, (create eventType hookId url t data env).state, []⟩) ∧
    (eventType ≠ "commerceAction" →
      ∀ r, env.createOutgoing = Except.ok r →
        jsTruthy (jsOrJ (jget r "webhookId") (Json.str "")) = true →
        (create eventType hookId url t data env).outcome = Except.ok true ∧
        checkExists eventType hookId url (create eventType hookId url t data env).state env =
          ⟨true, (create eventType hookId url t data env).state, []⟩) := by
  constructor
  · intro he h1 r h
    subst he
    refine ⟨by simp [create, h], ?_⟩
    simp [create, h, checkExists, optIsStr, h1]
  · intro he r h htruthy
    have hne : (eventType == "commerceAction") = false := by
      simp [he]
    refine ⟨by simp [create, hne, h], ?_⟩
    simp [create, hne, h, checkExists, jsTruthyOpt, htruthy, optIsStr]

/-- A remote environment in which the outgoing-webhook creation POST
succeeds and reports id `wh1`; everything else throws. -/
def envCreateOk : RemoteEnv :=
  { envAllDown with
    createOutgoing := Except.ok (Json.obj [("webhookId", Json.str "wh1")]) }

/-- C4 witness: both kinds at concrete inputs — a commerce create with a
configured hook id, and a report create whose response names `wh1` —
each followed by a fast-path `checkExists` hit with no remote call. -/
theorem create_then_checkExists_fast_path_witness :
    ((create "commerceAction" "hook1" "https://cb" false RegistrationState.empty envConnectOk).outcome =
        Except.ok true ∧
      checkExists "commerceAction" "hook1" "https://cb"
          (create "commerceAction" "hook1" "https://cb" false RegistrationState.empty envConnectOk).state
          envConnectOk =
        ⟨true, (create "commerceAction" "hook1" "https://cb" false RegistrationState.empty envConnectOk).state, []⟩) ∧
    ((create "messageReport" "" "https://cb" false RegistrationState.empty envCreateOk).outcome =
        Except.ok true ∧
      checkExists "messageReport" "" "https://cb"
          (create "messageReport" "" "https://cb" false RegistrationState.empty envCreateOk).state
          envCreateOk =
        ⟨true, (create "messageReport" "" "https://cb" false RegistrationState.empty envCreateOk).state, []⟩) := by
  constructor
  · exact (create_then_checkExists_fast_path "commerceAction" "hook1" "https://cb" false
      RegistrationState.empty envConnectOk).1 rfl (by decide) (Json.obj []) rfl
  · exact (create_then_checkExists_fast_path "messageReport" "" "https://cb" false
      RegistrationState.empty envCreateOk).2 (by decide)
      (Json.obj [("webhookId", Json.str "wh1")]) rfl (by decide)

/-- C8: for every apiKey and apiSecret, the HMAC auth-header builder
produces
`HMAC-SHA256 apiKey=<k>, date=<d>, salt=<s>, signature=<sig>`, where
`d` is the clock reading (`new Date().toISOString()`, an ISO-8601 UTC
timestamp), `s` is the hex encoding of the 16 freshly drawn random
bytes — 32 hex characters — and `sig` is the hex-encoded HMAC-SHA256 of
`d ++ s` keyed by the apiSecret.  Freshness: the salt is a function of
the entropy drawn in that very call, injectively — distinct draws give
distinct salts, so two calls (even within the same millisecond, the
timestamp playing no role) produce identical salts only if `randomBytes`
returned the same 16 bytes twice. -/
theorem createSolapiAuthHeader_spec
    (apiKey apiSecret dateTime : String) (entropy : List Nat)
    (hlen : entropy.length = 16) (hbytes : ∀ b ∈ entropy, b < 256) :
    createSolapiAuthHeader apiKey apiSecret dateTime entropy =
      "HMAC-SHA256 apiKey=" ++ apiKey ++ ", date=" ++ dateTime ++ ", salt=" ++
        bytesToHex entropy ++ ", signature=" ++
        bytesToHex (hmacSha256 (utf8Bytes apiSecret)
          (utf8Bytes (dateTime ++ bytesToHex entropy))) ∧
    (bytesToHex entropy).length = 32 ∧
    (∀ e2 : List Nat, e2.length = 16 → (∀ b ∈ e2, b < 256) →
      e2 ≠ entropy → bytesToHex e2 ≠ bytesToHex entropy) := by
  refine ⟨rfl, ?_, ?_⟩
  · have h := hexPair_flatMap_length entropy
    simp only [bytesToHex, String.length, String.mk]
    simp [h, hlen]
  · intro e2 h1 h2 hne heq
    apply hne
    have hdata : e2.flatMap hexPair = entropy.flatMap hexPair := by
      have := congrArg String.data heq
      simpa [bytesToHex] using this
    exact hexPair_flatMap_inj e2 entropy h2 hbytes hdata

/-- C8 witness: a concrete 16-byte draw (`0, 1, ..., 15`). -/
theorem createSolapiAuthHeader_spec_witness :
    createSolapiAuthHeader "AKEXAMPLE" "secret" "2026-10-12T00:00:00.000Z" (List.range 16) =
      "HMAC-SHA256 apiKey=" ++ "AKEXAMPLE" ++ ", date=" ++ "2026-10-12T00:00:00.000Z" ++
        ", salt=" ++ bytesToHex (List.range 16) ++ ", signature=" ++
        bytesToHex (hmacSha256 (utf8Bytes "secret")
          (utf8Bytes ("2026-10-12T00:00:00.000Z" ++ bytesToHex (List.range 16)))) ∧
    (bytesToHex (List.range 16)).length = 32 := by
  constructor
  · exact (createSolapiAuthHeader_spec "AKEXAMPLE" "secret" "2026-10-12T00:00:00.000Z"
      (List.range 16) (by decide) (by decide)).1
  · exact (createSolapiAuthHeader_spec "AKEXAMPLE" "secret" "2026-10-12T00:00:00.000Z"
      (List.range 16) (by decide) (by decide)).2.1
